import Mathlib

/-!
Shallow embedding of `src/list_notebooks.py`: a minimal MCP client that
spawns a subprocess, performs a JSON-RPC handshake (`id = 1`), invokes the
`notebook_list` tool (`id = 2`), prints the `text` field of each returned
content item, and unconditionally terminates the subprocess in a
`try/finally` block.

Modelling conventions:
* A JSON value is `Json`; JSON numbers are modelled as integers (the
  protocol ids the script compares against are the integer literals 1, 2).
* A line read from the subprocess's stdout is a `Line`: either `invalid`
  (not parseable JSON, so `json.loads` raises) or `json v`.
* The stdout stream is a `List Line`; end-of-file is the empty list.
* Python truthiness (`if not resp: break`) is `Json.truthy`.
* Python `==` against an integer literal is `pyEqInt`; Python treats
  `True == 1` and `False == 0` as true, which `pyEqInt` reproduces.
* `resp.get(k)` and `resp.get(k, default)` on a non-dict raise
  `AttributeError`; `for item in x` on a non-iterable raises `TypeError`.
  These surface as `Err.attrError` / `Err.typeError`.
* The environment of a run is a `World`: whether the spawn succeeded,
  whether each of the two stdin writes succeeds, and the stdout lines.
* `runSession` returns a `SessionResult` recording which requests were
  written, whether the second read loop was entered, the values passed to
  `print`, how many times the `finally` block (terminate + wait) ran, and
  the exception (if any) that propagated out.
-/

/-- A JSON value, as produced by `json.loads` on one line. Numbers are
modelled as integers; object fields are the parsed dict's items. -/
inductive Json where
  | null
  | bool (b : Bool)
  | num (n : Int)
  | str (s : String)
  | arr (elems : List Json)
  | obj (fields : List (String × Json))

/-- Python truthiness of a JSON value: `None`, `False`, `0`, `""`, `[]`
and `{}` are falsy, everything else is truthy. -/
def Json.truthy : Json → Bool
  | .null => false
  | .bool b => b
  | .num n => n != 0
  | .str s => s != ""
  | .arr elems => !elems.isEmpty
  | .obj fields => !fields.isEmpty

/-- Python `v == n` for a JSON value `v` and integer literal `n`:
numbers compare by value, `True`/`False` compare as `1`/`0`, and every
other type compares unequal to an integer. -/
def pyEqInt : Json → Int → Bool
  | .num m, n => m == n
  | .bool b, n => (if b then (1 : Int) else 0) == n
  | _, _ => false

/-- Python `v == n` where `v` is the result of `dict.get` (absent key
yields `None`, and `None == n` is false). -/
def optPyEqInt : Option Json → Int → Bool
  | some v, n => pyEqInt v n
  | none, _ => false

/-- Exceptions the script can raise, per the spec's error taxonomy, plus
the two host-language errors reachable on malformed server output. -/
inductive Err where
  | spawnError
  | writeError
  | decodeError
  | attrError
  | typeError
deriving DecidableEq

/-- Python `resp.get(k)`: succeeds with the looked-up field (or `None`)
when `resp` is a dict, raises `AttributeError` otherwise. -/
def dictGet : Json → String → Except Err (Option Json)
  | .obj fields, k => .ok (List.lookup k fields)
  | _, _ => .error .attrError

/-- Python `resp.get(k, d)`: like `dictGet` but with a default value. -/
def dictGetD : Json → String → Json → Except Err Json
  | .obj fields, k, d => .ok ((List.lookup k fields).getD d)
  | _, _, _ => .error .attrError

/-- Python `for item in v`: lists yield their elements, strings their
one-character substrings, dicts their keys; other values raise
`TypeError`. -/
def pyIter : Json → Except Err (List Json)
  | .arr elems => .ok elems
  | .str s => .ok (s.data.map fun c => .str (String.mk [c]))
  | .obj fields => .ok (fields.map fun kv => .str kv.1)
  | _ => .error .typeError

/-- One line of the subprocess's stdout: either not parseable JSON
(`json.loads` raises) or a parsed JSON value. -/
inductive Line where
  | invalid
  | json (v : Json)

/-- The script's `read_msg`: reads one line; at end-of-file (`not line`)
returns `None`; otherwise decodes it, raising `DecodeError` on invalid
JSON. Returns the decoded value together with the remaining stream. -/
def read_msg : List Line → Except Err (Option Json × List Line)
  | [] => .ok (none, [])
  | Line.invalid :: _ => .error .decodeError
  | Line.json v :: rest => .ok (some v, rest)

/-- The script's read loop (`while True: resp = read_msg(); if not resp:
break; if resp.get("id") == n: break`), for expected id `n`. Returns the
matched response (`some`) or `none` when the loop broke without a match
(end-of-file, or a falsy decoded value), with the unconsumed remainder of
the stream; propagates `DecodeError` / `AttributeError`. -/
def awaitResponse (n : Int) : List Line → Except Err (Option Json × List Line)
  | [] => .ok (none, [])
  | Line.invalid :: _ => .error .decodeError
  | Line.json v :: rest =>
    if v.truthy then
      match dictGet v "id" with
      | .error e => .error e
      | .ok idv =>
        if optPyEqInt idv n then .ok (some v, rest)
        else awaitResponse n rest
    else .ok (none, rest)

/-- The `for item in content: print(item.get("text", ""))` loop: returns
the values printed before any failure, and the error (if any) raised by
`item.get` on a non-dict item. -/
def emitItems : List Json → List Json × Option Err
  | [] => ([], none)
  | item :: rest =>
    match dictGetD item "text" (.str "") with
    | .error e => ([], some e)
    | .ok t =>
      let tail := emitItems rest
      (t :: tail.1, tail.2)

/-- The body of the `if resp.get("id") == 2` branch: `result =
resp.get("result", {})`, `content = result.get("content", [])`, then
print each item's `text` (default `""`). Returns printed values and the
error, if any, that escaped. -/
def printResp (resp : Json) : List Json × Option Err :=
  match dictGetD resp "result" (Json.obj []) with
  | .error e => ([], some e)
  | .ok result =>
    match dictGetD result "content" (Json.arr []) with
    | .error e => ([], some e)
    | .ok content =>
      match pyIter content with
      | .error e => ([], some e)
      | .ok items => emitItems items

/-- The environment one run of the script faces: whether
`create_subprocess_exec` succeeds, whether each of the two stdin
write+drain steps succeeds, and the subprocess's stdout lines. -/
structure World where
  spawnOk : Bool
  write1Ok : Bool
  write2Ok : Bool
  lines : List Line

/-- Observable outcome of one run: which of the two requests were
successfully written, whether the second read loop was entered, the
values passed to `print`, how many times the `finally` block
(`process.terminate(); await process.wait()`) executed, and the
exception (if any) that propagated to the top. -/
structure SessionResult where
  sentInit : Bool
  sentTool : Bool
  toolLoopEntered : Bool
  printed : List Json
  terminateCount : Nat
  error : Option Err

/-- The `try` block of `list_notebooks` (steps 2-4 of the session): send
init, first read loop, send tool call, second read loop with printing.
Every path through the `try` reaches the `finally`, so `terminateCount`
is 1 in every branch. -/
def sessionBody (w : World) : SessionResult :=
  if w.write1Ok then
    match awaitResponse 1 w.lines with
    | .error e => ⟨true, false, false, [], 1, some e⟩
    | .ok (_, rest1) =>
      if w.write2Ok then
        match awaitResponse 2 rest1 with
        | .error e => ⟨true, true, true, [], 1, some e⟩
        | .ok (none, _) => ⟨true, true, true, [], 1, none⟩
        | .ok (some resp, _) =>
          ⟨true, true, true, (printResp resp).1, 1, (printResp resp).2⟩
      else ⟨true, false, false, [], 1, some .writeError⟩
  else ⟨false, false, false, [], 1, some .writeError⟩

/-- The whole of `list_notebooks`: if the spawn fails the exception
propagates before the `try` is entered (no write, no read, no
`finally`); otherwise the `try/finally` body runs. -/
def runSession (w : World) : SessionResult :=
  if w.spawnOk then sessionBody w
  else ⟨false, false, false, [], 0, some .spawnError⟩

/-- A stdout line the read loop for expected id `n` silently discards: a
truthy (non-empty) JSON object whose `id` field does not Python-equal
`n`. -/
def discardable (n : Int) : Line → Bool
  | Line.json (Json.obj fields) =>
    (Json.obj fields).truthy && !optPyEqInt (List.lookup "id" fields) n
  | _ => false

/-- Python `resp.get("id") == n` for a returned response: true exactly
when `resp` is a dict whose `id` field Python-equals `n`. -/
def idMatchesPy (resp : Json) (n : Int) : Bool :=
  match resp with
  | .obj fields => optPyEqInt (List.lookup "id" fields) n
  | _ => false

/-- The initialize-then-reply stream of spec Scenario A: the server
answers id 1 with an empty result, then id 2 with two content items. -/
def scenarioA : World :=
  ⟨true, true, true,
    [Line.json (Json.obj [("id", Json.num 1), ("result", Json.obj [])]),
     Line.json (Json.obj [("id", Json.num 2),
       ("result", Json.obj [("content", Json.arr
         [Json.obj [("text", Json.str "Notebook A")],
          Json.obj [("text", Json.str "Notebook B")]])])])]⟩

/-- The stream of spec Scenario C: the server answers id 1, then closes
its stdout without ever answering id 2. -/
def scenarioC : World :=
  ⟨true, true, true,
    [Line.json (Json.obj [("id", Json.num 1), ("result", Json.obj [])])]⟩

/-- The read loop passes over any prefix of discardable lines (truthy
JSON objects whose `id` field does not match) without effect. -/
theorem awaitResponse_skip (n : Int) (pre rest : List Line)
    (h : ∀ l ∈ pre, discardable n l = true) :
    awaitResponse n (pre ++ rest) = awaitResponse n rest := by
  induction pre with
  | nil => rfl
  | cons l pre ih =>
    have hl : discardable n l = true := h l (List.mem_cons_self l pre)
    have htail : ∀ x ∈ pre, discardable n x = true :=
      fun x hx => h x (List.mem_cons_of_mem l hx)
    cases l with
    | invalid => simp [discardable] at hl
    | json v =>
      cases v with
      | null => simp [discardable] at hl
      | bool b => simp [discardable] at hl
      | num m => simp [discardable] at hl
      | str s => simp [discardable] at hl
      | arr es => simp [discardable] at hl
      | obj fields =>
        simp only [discardable, Bool.and_eq_true, Bool.not_eq_true'] at hl
        simp only [List.cons_append, awaitResponse, hl.1, if_true, dictGet,
          hl.2, if_false]
        exact ih htail

/-- C1: whenever the subprocess was successfully spawned, the
termination step of the `finally` block (`process.terminate(); await
process.wait()`) executes exactly once, on every path through the
session: normal completion, write failure, decode failure, and premature
closure of the output stream. -/
theorem terminate_runs_once_when_spawned (w : World) (hs : w.spawnOk = true) :
    (runSession w).terminateCount = 1 := by
  unfold runSession sessionBody
  rw [if_pos hs]
  repeat' split
  all_goals rfl

/-- C1 witness: in a concrete successfully-spawned world the termination
step runs exactly once. -/
theorem terminate_runs_once_witness :
    (runSession ⟨true, true, true, []⟩).terminateCount = 1 :=
  terminate_runs_once_when_spawned ⟨true, true, true, []⟩ rfl

/-- C2 counterexample: the claim says a successfully decoded line whose
`id` does not equal the expected id is discarded and reading continues
until a match or end-of-file. But on the stream `{}` then `{"id":1}`,
the empty object decodes successfully, has no matching `id`, and yet the
loop returns absent (the Python `if not resp: break` fires on the falsy
`{}`), leaving the matching `{"id":1}` line unconsumed — neither a match
nor end-of-file. -/
theorem awaitResponse_breaks_on_falsy_line :
    awaitResponse 1 [Line.json (Json.obj []),
        Line.json (Json.obj [("id", Json.num 1)])]
      = .ok (none, [Line.json (Json.obj [("id", Json.num 1)])]) := rfl

/-- C2 (amended): `awaitResponse(expectedId)` discards every
successfully decoded line that is a truthy (non-empty) JSON object whose
`id` field does not equal `expectedId` and keeps reading, returning the
first line whose `id` equals `expectedId`; a notification such as
`{"method":"log","params":{}}` is such a truthy object and is discarded,
the eventual matching line still being found. (The loop also stops, with
absent, on a line that decodes to a Python-falsy value such as `{}` or
`null`, and at end-of-file.) -/
theorem awaitResponse_discards_nonmatching_objects (n : Int)
    (pre rest : List Line) (fields : List (String × Json))
    (hpre : ∀ l ∈ pre, discardable n l = true)
    (hid : optPyEqInt (List.lookup "id" fields) n = true) :
    awaitResponse n (pre ++ Line.json (Json.obj fields) :: rest)
      = .ok (some (Json.obj fields), rest) := by
  rw [awaitResponse_skip n pre _ hpre]
  cases fields with
  | nil => simp [List.lookup, optPyEqInt] at hid
  | cons kv tlf =>
    have ht : (Json.obj (kv :: tlf)).truthy = true := rfl
    simp [awaitResponse, ht, dictGet, hid]

/-- C2 witness: a `{"method":"log","params":{...}}` notification ahead
of the `{"id":1,...}` reply is discarded and the reply is returned. -/
theorem awaitResponse_discards_witness :
    awaitResponse 1
        [Line.json (Json.obj [("method", Json.str "log"),
           ("params", Json.obj [("verbose", Json.bool true)])]),
         Line.json (Json.obj [("id", Json.num 1), ("result", Json.obj [])])]
      = .ok (some (Json.obj [("id", Json.num 1), ("result", Json.obj [])]), []) :=
  awaitResponse_discards_nonmatching_objects 1
    [Line.json (Json.obj [("method", Json.str "log"),
      ("params", Json.obj [("verbose", Json.bool true)])])]
    [] [("id", Json.num 1), ("result", Json.obj [])]
    (by decide) (by decide)

/-- C3: for every stream of lines and every expected id `n`, whenever
`awaitResponse n` returns a response (rather than absent or an
exception), that response is a JSON object whose `id` field equals `n`
under the Python `==` the script uses; it never returns a response with
a different or missing `id`. -/
theorem awaitResponse_id_correlates (n : Int) (lines : List Line)
    (resp : Json) (rest : List Line)
    (h : awaitResponse n lines = .ok (some resp, rest)) :
    idMatchesPy resp n = true := by
  induction lines generalizing rest with
  | nil => simp [awaitResponse] at h
  | cons l tl ih =>
    cases l with
    | invalid => simp [awaitResponse] at h
    | json v =>
      simp only [awaitResponse] at h
      by_cases ht : v.truthy = true
      · rw [if_pos ht] at h
        cases v with
        | null => simp [dictGet] at h
        | bool b => simp [dictGet] at h
        | num m => simp [dictGet] at h
        | str s => simp [dictGet] at h
        | arr es => simp [dictGet] at h
        | obj fields =>
          simp only [dictGet] at h
          by_cases hm : optPyEqInt (List.lookup "id" fields) n = true
          · rw [if_pos hm] at h
            simp only [Except.ok.injEq, Prod.mk.injEq, Option.some.injEq] at h
            rw [← h.1]
            simpa [idMatchesPy] using hm
          · rw [if_neg hm] at h
            exact ih rest h
      · rw [if_neg ht] at h
        simp at h

/-- C3 witness: on a concrete stream the returned response's `id` field
equals the expected id. -/
theorem awaitResponse_id_correlates_witness :
    idMatchesPy (Json.obj [("id", Json.num 1)]) 1 = true :=
  awaitResponse_id_correlates 1 [Line.json (Json.obj [("id", Json.num 1)])]
    (Json.obj [("id", Json.num 1)]) [] rfl

/-- C4: in spec Scenario A (the server answers id 1 with an empty result
and id 2 with two content items `Notebook A`, `Notebook B`), the session
prints exactly the two strings `Notebook A` then `Notebook B`, in order,
and completes without error. -/
theorem scenarioA_prints_two_lines :
    runSession scenarioA
      = ⟨true, true, true, [Json.str "Notebook A", Json.str "Notebook B"],
         1, none⟩ := rfl

/-- C5: in spec Scenario C (the server closes stdout right after the
id 1 reply, never answering id 2), the second read loop runs on an
already-exhausted stream so `awaitResponse 2` returns absent, the
session prints zero lines, and the termination step still runs once. -/
theorem scenarioC_absent_still_cleans_up :
    awaitResponse 2 [] = (.ok (none, []) : Except Err (Option Json × List Line))
    ∧ runSession scenarioC = ⟨true, true, true, [], 1, none⟩ :=
  ⟨rfl, rfl⟩

/-- C6: if the spawn fails, the exception propagates before the
`try/finally` is entered: nothing is written to or read from the
subprocess, and the termination step never runs. -/
theorem spawn_failure_no_io_no_cleanup (w : World) (hs : w.spawnOk = false) :
    runSession w = ⟨false, false, false, [], 0, some Err.spawnError⟩ := by
  unfold runSession
  rw [if_neg (by simp [hs])]

/-- C6 witness: a concrete world in which the spawn fails. -/
theorem spawn_failure_witness :
    runSession ⟨false, true, true, []⟩
      = ⟨false, false, false, [], 0, some Err.spawnError⟩ :=
  spawn_failure_no_io_no_cleanup ⟨false, true, true, []⟩ rfl

/-- C7: when the id 2 response is present, a result object with no
`content` field is treated as the empty sequence (zero values printed,
no failure), and a content item with no `text` field is printed as the
empty string (no failure). -/
theorem missing_text_and_content_defaults (rfields ifields : List (String × Json))
    (hc : List.lookup "content" rfields = none)
    (ht : List.lookup "text" ifields = none) :
    printResp (Json.obj [("id", Json.num 2), ("result", Json.obj rfields)])
      = ([], none)
    ∧ emitItems [Json.obj ifields] = ([Json.str ""], none) := by
  constructor
  · have h1 : printResp (Json.obj [("id", Json.num 2), ("result", Json.obj rfields)])
        = match pyIter ((List.lookup "content" rfields).getD (Json.arr [])) with
          | .error e => ([], some e)
          | .ok items => emitItems items := rfl
    rw [h1, hc]
    rfl
  · simp [emitItems, dictGetD, ht]

/-- C7 witness: a result with no `content` field prints nothing, and an
item with no `text` field prints the empty string, at the concrete empty
objects. -/
theorem missing_text_and_content_defaults_witness :
    printResp (Json.obj [("id", Json.num 2), ("result", Json.obj [])])
      = ([], none)
    ∧ emitItems [Json.obj []] = ([Json.str ""], none) :=
  missing_text_and_content_defaults [] [] rfl rfl

/-- C8: a stdout line that is not valid JSON makes `read_msg` raise
`DecodeError`; in the session the error is not retried, it propagates to
the top, and the termination cleanup still runs (once) before it
re-surfaces. -/
theorem invalid_line_decode_error_cleanup (w : World) (rest : List Line)
    (hs : w.spawnOk = true) (h1 : w.write1Ok = true)
    (hl : w.lines = Line.invalid :: rest) :
    read_msg w.lines = .error Err.decodeError
    ∧ (runSession w).error = some Err.decodeError
    ∧ (runSession w).terminateCount = 1 := by
  refine ⟨by rw [hl]; rfl, ?_, ?_⟩ <;>
    simp [runSession, sessionBody, hs, h1, hl, awaitResponse, read_msg]

/-- C8 witness: the concrete world whose first stdout line is not valid
JSON. -/
theorem invalid_line_decode_error_witness :
    read_msg [Line.invalid] = .error Err.decodeError
    ∧ (runSession ⟨true, true, true, [Line.invalid]⟩).error
        = some Err.decodeError
    ∧ (runSession ⟨true, true, true, [Line.invalid]⟩).terminateCount = 1 :=
  invalid_line_decode_error_cleanup ⟨true, true, true, [Line.invalid]⟩ []
    rfl rfl rfl

/-- C9: if the id 2 response carries an error object and no `result`
field, the script prints zero lines and completes normally: the error
object is silently ignored and the outcome is the same record as for an
empty result. -/
theorem error_response_silently_ignored (e : Json) :
    runSession ⟨true, true, true,
      [Line.json (Json.obj [("id", Json.num 1), ("result", Json.obj [])]),
       Line.json (Json.obj [("id", Json.num 2), ("error", e)])]⟩
      = ⟨true, true, true, [], 1, none⟩ := rfl

/-- C10: if stdout reaches end-of-file before any id 1 line arrives
(every line being a discarded notification), the client does not abort:
provided the writes themselves succeed, it still sends the id 2
tool-invocation request and enters the second read loop. -/
theorem handshake_eof_still_invokes_tool (w : World)
    (hs : w.spawnOk = true) (h1 : w.write1Ok = true) (h2 : w.write2Ok = true)
    (hl : ∀ l ∈ w.lines, discardable 1 l = true) :
    (runSession w).sentTool = true ∧ (runSession w).toolLoopEntered = true := by
  have ha : awaitResponse 1 w.lines = .ok (none, []) := by
    rw [show w.lines = w.lines ++ [] from (List.append_nil _).symm,
      awaitResponse_skip 1 w.lines [] hl]
    rfl
  constructor <;> simp [runSession, sessionBody, hs, h1, ha, h2, awaitResponse]

/-- C10 witness: a stream holding one notification and no id 1 line;
the tool call is still sent and the second loop entered. -/
theorem handshake_eof_still_invokes_tool_witness :
    (runSession ⟨true, true, true,
        [Line.json (Json.obj [("method", Json.str "log"),
          ("params", Json.obj [("verbose", Json.bool true)])])]⟩).sentTool = true
    ∧ (runSession ⟨true, true, true,
        [Line.json (Json.obj [("method", Json.str "log"),
          ("params", Json.obj [("verbose", Json.bool true)])])]⟩).toolLoopEntered
        = true :=
  handshake_eof_still_invokes_tool
    ⟨true, true, true,
      [Line.json (Json.obj [("method", Json.str "log"),
        ("params", Json.obj [("verbose", Json.bool true)])])]⟩
    rfl rfl rfl (by decide)
